import Mathlib

/-!
Verification of the flash-poll-spark polling application.

The relational store (three tables `polls`, `poll_options`, `votes`, declared
in `supabase/migrations/20250806055456_*.sql`) is embedded as lists of rows
carried in a `Store` structure.  The migration's `UNIQUE(poll_id, user_id)`
constraint on `votes` and the `ON DELETE CASCADE` foreign keys are part of the
store operations' semantics.  The client handlers (`handleVote` and
`handleDeletePoll` from `PollCard`, `handleSubmit` from `CreatePollForm`,
`fetchPolls` from `Dashboard`, `init` from `ResetPassword`) are embedded as
pure functions from the relevant component state and store to a result that
records the successor store, the successor component state, the trace of store
requests issued, and the toasts surfaced.  Asynchronous network calls become
explicit failure-injection flags where a handler inspects an `error` result;
JavaScript number division in the percentage display is modelled exactly over
`ℚ`.
-/

namespace FlashPoll

abbrev UserId := Nat
abbrev PollId := Nat
abbrev OptionId := Nat
abbrev VoteId := Nat

/-- A row of the `polls` table (migration lines 2-8). -/
structure PollRow where
  id : PollId
  title : String
  user_id : UserId
  created_at : Nat
deriving Repr, DecidableEq

/-- A row of the `poll_options` table (migration lines 11-16). -/
structure OptionRow where
  id : OptionId
  poll_id : PollId
  option_text : String
deriving Repr, DecidableEq

/-- A row of the `votes` table (migration lines 19-26). -/
structure VoteRow where
  id : VoteId
  poll_id : PollId
  option_id : OptionId
  user_id : UserId
deriving Repr, DecidableEq

/-- The relational store: the three tables, a fresh-id source standing for
`gen_random_uuid()`, and a clock standing for `now()`. -/
structure Store where
  polls : List PollRow
  poll_options : List OptionRow
  votes : List VoteRow
  nextId : Nat
  now : Nat
deriving Repr

def Store.empty : Store := ⟨[], [], [], 0, 0⟩

/-- The (poll, user) filter used both by the client's existing-vote lookup
(`.eq('poll_id', ...).eq('user_id', ...)`) and by the store's
`UNIQUE(poll_id, user_id)` uniqueness check. -/
def votePairPred (pid : PollId) (uid : UserId) (v : VoteRow) : Bool :=
  (v.poll_id == pid) && (v.user_id == uid)

/-- `.select('id').eq('poll_id', pid).eq('user_id', uid).maybeSingle()`. -/
def Store.findVote (s : Store) (pid : PollId) (uid : UserId) : Option VoteRow :=
  s.votes.find? (votePairPred pid uid)

/-- `INSERT INTO votes` under the migration's `UNIQUE(poll_id, user_id)`
constraint: the insert is rejected (and the table left unchanged) when a row
for the same (poll, user) pair already exists. -/
def Store.insertVoteRow (s : Store) (pid : PollId) (oid : OptionId) (uid : UserId) :
    Except String Store :=
  if s.votes.any (votePairPred pid uid) then
    .error "duplicate key value violates unique constraint"
  else
    .ok { s with
          votes := s.votes ++ [⟨s.nextId, pid, oid, uid⟩],
          nextId := s.nextId + 1 }

/-- `UPDATE votes SET option_id = oid WHERE id = vid`. -/
def Store.updateVoteOption (s : Store) (vid : VoteId) (oid : OptionId) : Store :=
  { s with votes := s.votes.map (fun v => if v.id == vid then { v with option_id := oid } else v) }

/-- `DELETE FROM votes WHERE poll_id = pid`. -/
def Store.deleteVotesByPoll (s : Store) (pid : PollId) : Store :=
  { s with votes := s.votes.filter (fun v => !(v.poll_id == pid)) }

/-- `DELETE FROM poll_options WHERE poll_id = pid`; the `ON DELETE CASCADE`
on `votes.option_id` removes the votes referencing a deleted option. -/
def Store.deleteOptionsByPoll (s : Store) (pid : PollId) : Store :=
  let deletedIds := (s.poll_options.filter (fun o => o.poll_id == pid)).map (·.id)
  { s with
    poll_options := s.poll_options.filter (fun o => !(o.poll_id == pid)),
    votes := s.votes.filter (fun v => !(deletedIds.contains v.option_id)) }

/-- `DELETE FROM polls WHERE id = pid AND user_id = uid`; the cascades on
`poll_options.poll_id`, `votes.poll_id` and `votes.option_id` remove the
dependents of every deleted poll row. -/
def Store.deletePollRow (s : Store) (pid : PollId) (uid : UserId) : Store :=
  let deletedPolls := (s.polls.filter (fun p => (p.id == pid) && (p.user_id == uid))).map (·.id)
  let deletedOpts := (s.poll_options.filter (fun o => deletedPolls.contains o.poll_id)).map (·.id)
  { s with
    polls := s.polls.filter (fun p => !((p.id == pid) && (p.user_id == uid))),
    poll_options := s.poll_options.filter (fun o => !(deletedPolls.contains o.poll_id)),
    votes := s.votes.filter
      (fun v => !(deletedPolls.contains v.poll_id) && !(deletedOpts.contains v.option_id)) }

/-- `INSERT INTO polls (title, user_id) ... RETURNING *`: returns the new
store and the generated poll id. -/
def Store.insertPollRow (s : Store) (title : String) (uid : UserId) : Store × PollId :=
  ({ s with
     polls := s.polls ++ [⟨s.nextId, title, uid, s.now⟩],
     nextId := s.nextId + 1 }, s.nextId)

/-- `INSERT INTO poll_options` of one row per option text, all referencing
poll `pid`. -/
def Store.insertOptionRows (s : Store) (pid : PollId) (texts : List String) : Store :=
  { s with
    poll_options := s.poll_options ++ texts.enum.map (fun it => ⟨s.nextId + it.1, pid, it.2⟩),
    nextId := s.nextId + texts.length }

/-- One request issued against the store, as traced by the client handlers. -/
inductive StoreOp where
  | selectVote (pid : PollId) (uid : UserId)
  | insertVote (pid : PollId) (oid : OptionId) (uid : UserId)
  | updateVote (vid : VoteId) (oid : OptionId)
  | deleteVotesByPoll (pid : PollId)
  | deleteOptionsByPoll (pid : PollId)
  | deletePoll (pid : PollId) (uid : UserId)
  | insertPoll (title : String) (uid : UserId)
  | insertOptions (pid : PollId) (texts : List String)
  | selectPollsWithOptions
  | countVotesByOption (oid : OptionId)
deriving Repr, DecidableEq

/-- Store-side effect of one request.  Reads mutate nothing; a vote insert
that violates the uniqueness constraint is rejected and leaves the table
unchanged. -/
def Store.applyOp (s : Store) : StoreOp → Store
  | .selectVote _ _ => s
  | .insertVote pid oid uid =>
      match s.insertVoteRow pid oid uid with
      | .ok s' => s'
      | .error _ => s
  | .updateVote vid oid => s.updateVoteOption vid oid
  | .deleteVotesByPoll pid => s.deleteVotesByPoll pid
  | .deleteOptionsByPoll pid => s.deleteOptionsByPoll pid
  | .deletePoll pid uid => s.deletePollRow pid uid
  | .insertPoll title uid => (s.insertPollRow title uid).1
  | .insertOptions pid texts => s.insertOptionRows pid texts
  | .selectPollsWithOptions => s
  | .countVotesByOption _ => s

def Store.applyOps (s : Store) : List StoreOp → Store
  | [] => s
  | op :: ops => (s.applyOp op).applyOps ops

/-- The vote rows of a given (poll, user) pair. -/
def Store.pairVotes (s : Store) (pid : PollId) (uid : UserId) : List VoteRow :=
  s.votes.filter (votePairPred pid uid)

/-- The one-vote-per-user-per-poll invariant: at most one vote row per
(poll, user) pair. -/
def Store.voteUnique (s : Store) : Prop :=
  ∀ pid uid, (s.pairVotes pid uid).length ≤ 1

/-- A toast notice (`toast({ title, description, variant })`), modelled by its
title and whether its variant is destructive. -/
structure Toast where
  title : String
  destructive : Bool
deriving Repr, DecidableEq

/-- The `PollCard` component state touched by its handlers: the in-flight
flags and the recorded user vote. -/
structure PollCardState where
  isVoting : Bool
  isDeleting : Bool
  userVote : Option OptionId
deriving Repr, DecidableEq

/-- Result of one `handleVote` call: successor store, successor component
state, trace of store requests, toasts surfaced. -/
structure VoteResult where
  store : Store
  state : PollCardState
  ops : List StoreOp
  toasts : List Toast
deriving Repr

/-- `PollCard.handleVote`: a guard (`if (!user || isVoting) return`), then an
existing-vote lookup for (poll, user); if a row is found, an update of that
row's `option_id`; otherwise an insert of a new vote row.  `setIsVoting(true)`
followed by the `finally` block's `setIsVoting(false)` nets to an unchanged
flag in the sequential embedding.  The insert's failure branch is the store's
uniqueness rejection; transient network failures are outside the model. -/
def handleVote (user : Option UserId) (cs : PollCardState) (s : Store)
    (pollId : PollId) (optionId : OptionId) : VoteResult :=
  match user with
  | none => ⟨s, cs, [], []⟩
  | some uid =>
    if cs.isVoting then ⟨s, cs, [], []⟩
    else
      match s.findVote pollId uid with
      | some existingVote =>
          ⟨s.updateVoteOption existingVote.id optionId,
           { cs with isVoting := false, userVote := some optionId },
           [.selectVote pollId uid, .updateVote existingVote.id optionId],
           [⟨"Vote recorded!", false⟩]⟩
      | none =>
          match s.insertVoteRow pollId optionId uid with
          | .ok s' =>
              ⟨s', { cs with isVoting := false, userVote := some optionId },
               [.selectVote pollId uid, .insertVote pollId optionId uid],
               [⟨"Vote recorded!", false⟩]⟩
          | .error _ =>
              ⟨s, { cs with isVoting := false },
               [.selectVote pollId uid, .insertVote pollId optionId uid],
               [⟨"Error voting", true⟩]⟩

/-- Result of one `handleDeletePoll` call. -/
structure DeleteResult where
  store : Store
  ops : List StoreOp
  toasts : List Toast
deriving Repr

/-- `PollCard.handleDeletePoll`: a guard
(`if (!user || !isOwner || isDeleting) return`), then three sequential
deletes — votes of the poll, options of the poll, the poll row itself with
the extra `user_id` ownership filter. -/
def handleDeletePoll (user : Option UserId) (isOwner : Bool) (cs : PollCardState)
    (s : Store) (pollId : PollId) : DeleteResult :=
  match user with
  | none => ⟨s, [], []⟩
  | some uid =>
    if !isOwner || cs.isDeleting then ⟨s, [], []⟩
    else
      ⟨((s.deleteVotesByPoll pollId).deleteOptionsByPoll pollId).deletePollRow pollId uid,
       [.deleteVotesByPoll pollId, .deleteOptionsByPoll pollId, .deletePoll pollId uid],
       [⟨"Poll deleted", false⟩]⟩

/-- The `CreatePollForm` field values. -/
structure CreatePollData where
  title : String
  options : List String
deriving Repr, DecidableEq

/-- `z.string().min(lo).max(hi)`: the length is between `lo` and `hi`. -/
def zodLenBetween (lo hi : Nat) (t : String) : Bool :=
  (lo ≤ t.length) && (t.length ≤ hi)

/-- `createPollSchema`: title of 1-200 characters, 2-10 options, each option
text of 1-100 characters. -/
def createPollSchema (d : CreatePollData) : Bool :=
  zodLenBetween 1 200 d.title
    && ((2 ≤ d.options.length) && (d.options.length ≤ 10))
    && d.options.all (zodLenBetween 1 100)

/-- Result of one poll-creation submission. -/
structure SubmitResult where
  store : Store
  ops : List StoreOp
  toasts : List Toast
  formReset : Bool
deriving Repr

/-- `CreatePollForm.handleSubmit`: a guard (`if (!user) return`), a poll
insert, then an options insert referencing the new poll; each insert's
possible store rejection is injected through a flag, and a rejection leaves
the store as the failing request found it (no rollback is issued). -/
def handleSubmit (user : Option UserId) (d : CreatePollData)
    (pollInsertFails optionsInsertFails : Bool) (s : Store) : SubmitResult :=
  match user with
  | none => ⟨s, [], [], false⟩
  | some uid =>
    if pollInsertFails then
      ⟨s, [.insertPoll d.title uid], [⟨"Error creating poll", true⟩], false⟩
    else
      let res := s.insertPollRow d.title uid
      if optionsInsertFails then
        ⟨res.1, [.insertPoll d.title uid, .insertOptions res.2 d.options],
         [⟨"Error creating poll", true⟩], false⟩
      else
        ⟨res.1.insertOptionRows res.2 d.options,
         [.insertPoll d.title uid, .insertOptions res.2 d.options],
         [⟨"Poll created!", false⟩], true⟩

/-- `form.handleSubmit(handleSubmit)`: the zod resolver validates the fields
first and an invalid submission never invokes `handleSubmit` — validation
errors are rendered inline with no store request. -/
def submitCreatePoll (user : Option UserId) (d : CreatePollData)
    (pollInsertFails optionsInsertFails : Bool) (s : Store) : SubmitResult :=
  if createPollSchema d then handleSubmit user d pollInsertFails optionsInsertFails s
  else ⟨s, [], [], false⟩

/-- An option as `PollCard` receives it: `vote_count` is optional and read
through `option.vote_count || 0`. -/
structure DisplayOption where
  id : OptionId
  option_text : String
  vote_count : Option Nat
deriving Repr, DecidableEq

/-- `PollCard.totalVotes`:
`poll.poll_options.reduce((sum, option) => sum + (option.vote_count || 0), 0)`. -/
def totalVotes (options : List DisplayOption) : Nat :=
  options.foldl (fun sum o => sum + o.vote_count.getD 0) 0

/-- The per-option percentage rendered by `PollCard`:
`totalVotes > 0 ? (option.vote_count || 0) / totalVotes * 100 : 0`,
with division carried out exactly over `ℚ`. -/
def percentage (voteCount : Option Nat) (total : Nat) : ℚ :=
  if 0 < total then (voteCount.getD 0 : ℚ) / (total : ℚ) * 100 else 0

/-- `.select('*', { count: 'exact', head: true }).eq('option_id', oid)`:
the number of vote rows referencing option `oid`. -/
def Store.countVotesForOption (s : Store) (oid : OptionId) : Nat :=
  (s.votes.filter (fun v => v.option_id == oid)).length

/-- The nested `poll_options (id, option_text)` select for one poll. -/
def Store.optionsOfPoll (s : Store) (pid : PollId) : List OptionRow :=
  s.poll_options.filter (fun o => o.poll_id == pid)

/-- `.order('created_at', { ascending: false })`: newest first. -/
def newestFirst (a b : PollRow) : Prop := b.created_at ≤ a.created_at

instance : DecidableRel newestFirst := fun _ _ => Nat.decLe _ _

instance : IsTotal PollRow newestFirst := ⟨fun a b => Nat.le_total b.created_at a.created_at⟩

instance : IsTrans PollRow newestFirst := ⟨fun _ _ _ hab hbc => le_trans hbc hab⟩

/-- One option of a fetched poll, carrying its re-derived vote count. -/
structure FetchedOption where
  id : OptionId
  option_text : String
  vote_count : Nat
deriving Repr, DecidableEq

/-- One poll as produced by `Dashboard.fetchPolls`. -/
structure FetchedPoll where
  id : PollId
  title : String
  created_at : Nat
  user_id : UserId
  poll_options : List FetchedOption
deriving Repr, DecidableEq

/-- `Dashboard.fetchPolls`: all polls ordered by `created_at` descending,
each with its nested options, each option annotated with the count of vote
rows referencing it. -/
def fetchPolls (s : Store) : List FetchedPoll :=
  (s.polls.insertionSort newestFirst).map (fun p =>
    ⟨p.id, p.title, p.created_at, p.user_id,
     (s.optionsOfPoll p.id).map (fun o =>
       ⟨o.id, o.option_text, s.countVotesForOption o.id⟩)⟩)

/-- The store requests `fetchPolls` issues: one nested polls-with-options
select, then one count query per option of every fetched poll. -/
def fetchPollsOps (s : Store) : List StoreOp :=
  StoreOp.selectPollsWithOptions ::
    (s.polls.insertionSort newestFirst).flatMap (fun p =>
      (s.optionsOfPoll p.id).map (fun o => StoreOp.countVotesByOption o.id))

/-- A fetched poll's options as `PollCard` receives them. -/
def FetchedPoll.display (p : FetchedPoll) : List DisplayOption :=
  p.poll_options.map (fun o => ⟨o.id, o.option_text, some o.vote_count⟩)

/-- The URL fragment parameters read by `ResetPassword`. -/
structure HashParams where
  error : Option String
  error_code : Option String
  error_description : Option String
  access_token : Option String
  refresh_token : Option String
deriving Repr, DecidableEq

/-- One observable action of the `ResetPassword` `init` effect. -/
inductive InitAction where
  | toast (t : Toast)
  | navigate (route : String)
  | setSession (accessToken refreshToken : String)
deriving Repr, DecidableEq

/-- JavaScript truthiness of `hashParams.get(...)`: `null` and the empty
string are falsy. -/
def jsFalsy : Option String → Bool
  | none => true
  | some s => s.isEmpty

/-- `ResetPassword`'s `init`: the expired-link error pair redirects home; a
missing `access_token` or `refresh_token` redirects home; otherwise
`supabase.auth.setSession` runs, redirecting home when it fails. -/
def init (h : HashParams) (setSessionFails : Bool) : List InitAction :=
  if (h.error == some "access_denied") && (h.error_code == some "otp_expired") then
    [.toast ⟨"Link expired", true⟩, .navigate "/"]
  else if jsFalsy h.access_token || jsFalsy h.refresh_token then
    [.toast ⟨"Invalid reset link", true⟩, .navigate "/"]
  else
    .setSession (h.access_token.getD "") (h.refresh_token.getD "") ::
      (if setSessionFails then [.toast ⟨"Session error", true⟩, .navigate "/"] else [])

/-- The spec's worked example: option A with 3 votes. -/
def optionA : DisplayOption := ⟨1, "A", some 3⟩

/-- The spec's worked example: option B with 1 vote. -/
def optionB : DisplayOption := ⟨2, "B", some 1⟩

/-- A small concrete store: two polls, two options on the first poll, three
votes from distinct users. -/
def sampleStore : Store :=
  ⟨[⟨1, "p1", 9, 5⟩, ⟨2, "p2", 9, 7⟩],
   [⟨11, 1, "A"⟩, ⟨12, 1, "B"⟩],
   [⟨21, 1, 11, 100⟩, ⟨22, 1, 11, 101⟩, ⟨23, 1, 12, 102⟩],
   30, 10⟩

/-- The first poll of `sampleStore` as `fetchPolls` reports it. -/
def sampleFetchedP1 : FetchedPoll := ⟨1, "p1", 5, 9, [⟨11, "A", 2⟩, ⟨12, "B", 1⟩]⟩

/-- C9: the vote-casting handler is a guarded no-op at its entry — called
with no authenticated user, or while `isVoting` is set, it returns
immediately: the store is untouched, the component state (including the
recorded `userVote`) is unchanged, no store request is issued, and no toast
is surfaced. -/
theorem handleVote_guard_noop (user : Option UserId) (cs : PollCardState)
    (s : Store) (pollId : PollId) (optionId : OptionId)
    (h : user = none ∨ cs.isVoting = true) :
    handleVote user cs s pollId optionId = ⟨s, cs, [], []⟩ := by
  rcases h with h | h
  · subst h; rfl
  · cases user with
    | none => rfl
    | some uid => simp [handleVote, h]

/-- Witness for C9 at a concrete guarded call. -/
theorem handleVote_guard_noop_witness :
    ((none : Option UserId) = none ∨ (⟨false, false, none⟩ : PollCardState).isVoting = true) ∧
    handleVote none ⟨false, false, none⟩ Store.empty 0 1 =
      ⟨Store.empty, ⟨false, false, none⟩, [], []⟩ :=
  ⟨Or.inl rfl, handleVote_guard_noop none ⟨false, false, none⟩ Store.empty 0 1 (Or.inl rfl)⟩

/-- C10: a poll-creation submission with no authenticated user is silently
dropped client-side: `handleSubmit` returns immediately with no store
request, no toast and no form reset, and the same holds of the whole
submission pipeline whatever the validation outcome. -/
theorem handleSubmit_unauthenticated_noop (d : CreatePollData)
    (pollInsertFails optionsInsertFails : Bool) (s : Store) :
    handleSubmit none d pollInsertFails optionsInsertFails s = ⟨s, [], [], false⟩ ∧
    submitCreatePoll none d pollInsertFails optionsInsertFails s = ⟨s, [], [], false⟩ := by
  refine ⟨rfl, ?_⟩
  unfold submitCreatePoll
  split <;> rfl

/-- C7: a reset-password visit whose fragment carries
`error=access_denied&error_code=otp_expired` redirects to the landing route
with a descriptive notice and never reaches `setSession`; likewise, absence
of `access_token` or `refresh_token` redirects to the landing route with no
session exchange. -/
theorem resetPassword_init_redirects (h : HashParams) (sessionFails : Bool) :
    ((h.error = some "access_denied" ∧ h.error_code = some "otp_expired") →
      init h sessionFails = [.toast ⟨"Link expired", true⟩, .navigate "/"]) ∧
    ((h.access_token = none ∨ h.refresh_token = none) →
      (InitAction.navigate "/" ∈ init h sessionFails ∧
       ∀ a r, InitAction.setSession a r ∉ init h sessionFails)) := by
  constructor
  · rintro ⟨he, hc⟩
    simp [init, he, hc]
  · intro htok
    unfold init
    split
    · exact ⟨by simp, by intro a r; simp⟩
    · split
      · exact ⟨by simp, by intro a r; simp⟩
      · exfalso
        rcases htok with h1 | h1 <;> simp [jsFalsy, h1] at *

/-- Witness for C7: the expired-error fragment and the token-less fragment,
both at concrete parameter values. -/
theorem resetPassword_init_redirects_witness :
    init ⟨some "access_denied", some "otp_expired", some "expired", none, none⟩ false =
      [.toast ⟨"Link expired", true⟩, .navigate "/"] ∧
    (InitAction.navigate "/" ∈ init ⟨none, none, none, none, some "r"⟩ true ∧
     ∀ a r, InitAction.setSession a r ∉ init ⟨none, none, none, none, some "r"⟩ true) :=
  ⟨(resetPassword_init_redirects ⟨some "access_denied", some "otp_expired",
      some "expired", none, none⟩ false).1 ⟨rfl, rfl⟩,
   (resetPassword_init_redirects ⟨none, none, none, none, some "r"⟩ true).2 (Or.inl rfl)⟩

/-- C3: the rendered percentage of an option is its vote count divided by the
displayed total times 100, and is 0 when the total is 0; on the worked
example with counts A = 3 and B = 1 the total is 4, A shows 75% and B shows
25%. -/
theorem percentage_spec (options : List DisplayOption) (o : DisplayOption) :
    (0 < totalVotes options →
      percentage o.vote_count (totalVotes options) =
        (o.vote_count.getD 0 : ℚ) / (totalVotes options : ℚ) * 100) ∧
    (totalVotes options = 0 → percentage o.vote_count (totalVotes options) = 0) ∧
    (totalVotes [optionA, optionB] = 4 ∧
     percentage optionA.vote_count (totalVotes [optionA, optionB]) = 75 ∧
     percentage optionB.vote_count (totalVotes [optionA, optionB]) = 25) := by
  refine ⟨fun ht => ?_, fun ht => ?_, ?_, ?_, ?_⟩
  · simp [percentage, ht]
  · simp [percentage, ht]
  · rfl
  · norm_num [percentage, totalVotes, optionA, optionB]
  · norm_num [percentage, totalVotes, optionA, optionB]

/-- Witness for C3 at the worked example's option A. -/
theorem percentage_spec_witness :
    0 < totalVotes [optionA, optionB] ∧
    percentage optionA.vote_count (totalVotes [optionA, optionB]) =
      (optionA.vote_count.getD 0 : ℚ) / (totalVotes [optionA, optionB] : ℚ) * 100 :=
  ⟨by decide, (percentage_spec [optionA, optionB] optionA).1 (by decide)⟩

/-- C4: a poll-creation submission whose title length is outside 1-200, whose
option count is outside 2-10, or one of whose option texts has length outside
1-100, is rejected by the schema before any store request: the submission
pipeline issues no request, changes nothing and resets nothing. -/
theorem createPoll_invalid_rejected (user : Option UserId) (d : CreatePollData)
    (pollInsertFails optionsInsertFails : Bool) (s : Store)
    (h : ¬(1 ≤ d.title.length ∧ d.title.length ≤ 200) ∨
         ¬(2 ≤ d.options.length ∧ d.options.length ≤ 10) ∨
         (∃ t ∈ d.options, ¬(1 ≤ t.length ∧ t.length ≤ 100))) :
    submitCreatePoll user d pollInsertFails optionsInsertFails s = ⟨s, [], [], false⟩ := by
  cases hcs : createPollSchema d with
  | false => simp [submitCreatePoll, hcs]
  | true =>
    exfalso
    simp only [createPollSchema, zodLenBetween, Bool.and_eq_true, decide_eq_true_eq,
      List.all_eq_true] at hcs
    obtain ⟨⟨⟨h1, h2⟩, ⟨h3, h4⟩⟩, h5⟩ := hcs
    rcases h with h | h | ⟨t, ht, hbad⟩
    · exact h ⟨h1, h2⟩
    · exact h ⟨h3, h4⟩
    · exact hbad (h5 t ht)

/-- Witness for C4 at an empty-titled submission with two options. -/
theorem createPoll_invalid_rejected_witness :
    (¬(1 ≤ ("" : String).length ∧ ("" : String).length ≤ 200) ∨
     ¬(2 ≤ (["a", "b"] : List String).length ∧ (["a", "b"] : List String).length ≤ 10) ∨
     (∃ t ∈ (["a", "b"] : List String), ¬(1 ≤ t.length ∧ t.length ≤ 100))) ∧
    submitCreatePoll (some 0) ⟨"", ["a", "b"]⟩ false false Store.empty =
      ⟨Store.empty, [], [], false⟩ :=
  ⟨Or.inl (by decide),
   createPoll_invalid_rejected (some 0) ⟨"", ["a", "b"]⟩ false false Store.empty
     (Or.inl (by decide))⟩

/-- C5: when the options insert fails after the poll insert succeeded, the
creation handler issues exactly the two insert requests and nothing else —
no rollback delete of any kind — so the new poll row persists with zero
options, and the caller sees only one destructive error notice. -/
theorem createPoll_no_rollback (uid : UserId) (d : CreatePollData) (s : Store)
    (hfresh : ∀ o ∈ s.poll_options, o.poll_id ≠ s.nextId) :
    (handleSubmit (some uid) d false true s).ops =
      [.insertPoll d.title uid, .insertOptions s.nextId d.options] ∧
    (⟨s.nextId, d.title, uid, s.now⟩ : PollRow) ∈
      (handleSubmit (some uid) d false true s).store.polls ∧
    (handleSubmit (some uid) d false true s).store.optionsOfPoll s.nextId = [] ∧
    (handleSubmit (some uid) d false true s).toasts = [⟨"Error creating poll", true⟩] ∧
    (handleSubmit (some uid) d false true s).formReset = false := by
  refine ⟨rfl, ?_, ?_, rfl, rfl⟩
  · simp [handleSubmit, Store.insertPollRow]
  · simp only [handleSubmit, Store.insertPollRow, Store.optionsOfPoll]
    rw [List.filter_eq_nil_iff]
    intro o ho
    simpa using hfresh o ho

/-- Witness for C5 on the empty store. -/
theorem createPoll_no_rollback_witness :
    (∀ o ∈ Store.empty.poll_options, o.poll_id ≠ Store.empty.nextId) ∧
    ((handleSubmit (some 1) ⟨"t", ["a", "b"]⟩ false true Store.empty).ops =
      [.insertPoll "t" 1, .insertOptions Store.empty.nextId ["a", "b"]] ∧
     (⟨Store.empty.nextId, "t", 1, Store.empty.now⟩ : PollRow) ∈
       (handleSubmit (some 1) ⟨"t", ["a", "b"]⟩ false true Store.empty).store.polls ∧
     (handleSubmit (some 1) ⟨"t", ["a", "b"]⟩ false true Store.empty).store.optionsOfPoll
       Store.empty.nextId = [] ∧
     (handleSubmit (some 1) ⟨"t", ["a", "b"]⟩ false true Store.empty).toasts =
       [⟨"Error creating poll", true⟩] ∧
     (handleSubmit (some 1) ⟨"t", ["a", "b"]⟩ false true Store.empty).formReset = false) :=
  ⟨by intro o ho; simp [Store.empty] at ho,
   createPoll_no_rollback 1 ⟨"t", ["a", "b"]⟩ Store.empty
     (by intro o ho; simp [Store.empty] at ho)⟩

/-- C6: an authorized, non-in-flight poll deletion issues exactly three store
requests in order — delete the poll's votes, delete the poll's options,
delete the poll row — and the final poll-row delete repeats the ownership
check by filtering on `user_id` as well as `id`. -/
theorem handleDeletePoll_sequence (uid : UserId) (cs : PollCardState) (s : Store)
    (pid : PollId) (h : cs.isDeleting = false) :
    (handleDeletePoll (some uid) true cs s pid).ops =
      [.deleteVotesByPoll pid, .deleteOptionsByPoll pid, .deletePoll pid uid] ∧
    (handleDeletePoll (some uid) true cs s pid).store =
      ((s.deleteVotesByPoll pid).deleteOptionsByPoll pid).deletePollRow pid uid ∧
    ∀ s' : Store, (s'.deletePollRow pid uid).polls =
      s'.polls.filter (fun p => !((p.id == pid) && (p.user_id == uid))) := by
  refine ⟨?_, ?_, fun s' => rfl⟩ <;> simp [handleDeletePoll, h]

/-- Witness for C6 at a concrete owner deletion on `sampleStore`. -/
theorem handleDeletePoll_sequence_witness :
    (⟨false, false, none⟩ : PollCardState).isDeleting = false ∧
    (handleDeletePoll (some 9) true ⟨false, false, none⟩ sampleStore 1).ops =
      [.deleteVotesByPoll 1, .deleteOptionsByPoll 1, .deletePoll 1 9] :=
  ⟨rfl, (handleDeletePoll_sequence 9 ⟨false, false, none⟩ sampleStore 1 rfl).1⟩

/-- `find?` skips a prefix in which nothing matches. -/
theorem find?_append_of_none {α : Type} (p : α → Bool) (l1 l2 : List α)
    (h : l1.find? p = none) : (l1 ++ l2).find? p = l2.find? p := by
  induction l1 with
  | nil => simp
  | cons a l ih =>
    rw [List.cons_append]
    cases hpa : p a with
    | true => simp [List.find?_cons, hpa] at h
    | false =>
      simp only [List.find?_cons, hpa] at h ⊢
      exact ih h

/-- The vote-row update touches only `option_id`, so the (poll, user) filter
is unaffected. -/
theorem votePairPred_update (pid uid nid oid : Nat) (x : VoteRow) :
    votePairPred pid uid (if x.id == nid then { x with option_id := oid } else x) =
      votePairPred pid uid x := by
  split <;> rfl

/-- C2: first-time voting inserts a new vote row and revoting updates that
row in place — voting for option A and then option B issues an insert then
an update of the same row, and leaves exactly one vote row for the
(poll, user) pair, referencing B. -/
theorem handleVote_revote (uid : UserId) (pid : PollId) (oA oB : OptionId)
    (cs : PollCardState) (s : Store)
    (hv : cs.isVoting = false) (hnone : s.findVote pid uid = none) :
    (handleVote (some uid) cs s pid oA).ops =
      [.selectVote pid uid, .insertVote pid oA uid] ∧
    (handleVote (some uid) cs s pid oA).state.userVote = some oA ∧
    (handleVote (some uid)
        (handleVote (some uid) cs s pid oA).state
        (handleVote (some uid) cs s pid oA).store pid oB).ops =
      [.selectVote pid uid, .updateVote s.nextId oB] ∧
    (handleVote (some uid)
        (handleVote (some uid) cs s pid oA).state
        (handleVote (some uid) cs s pid oA).store pid oB).store.pairVotes pid uid =
      [⟨s.nextId, pid, oB, uid⟩] ∧
    (handleVote (some uid)
        (handleVote (some uid) cs s pid oA).state
        (handleVote (some uid) cs s pid oA).store pid oB).state.userVote = some oB := by
  have hpredfalse : ∀ x ∈ s.votes, votePairPred pid uid x = false := by
    intro x hx
    have := List.find?_eq_none.mp (by simpa [Store.findVote] using hnone) x hx
    simpa using this
  have hany : s.votes.any (votePairPred pid uid) = false := by
    rw [List.any_eq_false]
    intro x hx
    simp [hpredfalse x hx]
  have h1 : handleVote (some uid) cs s pid oA =
      ⟨{ s with votes := s.votes ++ [⟨s.nextId, pid, oA, uid⟩], nextId := s.nextId + 1 },
       { cs with isVoting := false, userVote := some oA },
       [.selectVote pid uid, .insertVote pid oA uid],
       [⟨"Vote recorded!", false⟩]⟩ := by
    simp [handleVote, hv, hnone, Store.insertVoteRow, hany]
  have hfind1 :
      Store.findVote
        { s with votes := s.votes ++ [⟨s.nextId, pid, oA, uid⟩], nextId := s.nextId + 1 }
        pid uid = some ⟨s.nextId, pid, oA, uid⟩ := by
    unfold Store.findVote
    rw [find?_append_of_none _ _ _ (by simpa [Store.findVote] using hnone)]
    simp [List.find?, votePairPred]
  have h2 : handleVote (some uid) { cs with isVoting := false, userVote := some oA }
      { s with votes := s.votes ++ [⟨s.nextId, pid, oA, uid⟩], nextId := s.nextId + 1 }
      pid oB =
      ⟨Store.updateVoteOption
         { s with votes := s.votes ++ [⟨s.nextId, pid, oA, uid⟩], nextId := s.nextId + 1 }
         s.nextId oB,
       { cs with isVoting := false, userVote := some oB },
       [.selectVote pid uid, .updateVote s.nextId oB],
       [⟨"Vote recorded!", false⟩]⟩ := by
    simp [handleVote, hfind1]
  have h3 : (Store.updateVoteOption
      { s with votes := s.votes ++ [⟨s.nextId, pid, oA, uid⟩], nextId := s.nextId + 1 }
      s.nextId oB).pairVotes pid uid = [⟨s.nextId, pid, oB, uid⟩] := by
    unfold Store.updateVoteOption Store.pairVotes
    rw [List.map_append, List.filter_append]
    have hnil : ((s.votes.map
        (fun v => if v.id == s.nextId then { v with option_id := oB } else v)).filter
        (votePairPred pid uid)) = [] := by
      rw [List.filter_eq_nil_iff]
      intro y hy
      obtain ⟨x, hx, rfl⟩ := List.mem_map.mp hy
      rw [votePairPred_update]
      simp [hpredfalse x hx]
    rw [hnil]
    simp [votePairPred]
  refine ⟨by rw [h1], by rw [h1], ?_, ?_, ?_⟩ <;> rw [h1] <;> dsimp only <;> rw [h2]
  exact h3

/-- Witness for C2: vote for option 10 then option 11 on the empty store. -/
theorem handleVote_revote_witness :
    (⟨false, false, none⟩ : PollCardState).isVoting = false ∧
    Store.empty.findVote 1 5 = none ∧
    (handleVote (some 5)
        (handleVote (some 5) ⟨false, false, none⟩ Store.empty 1 10).state
        (handleVote (some 5) ⟨false, false, none⟩ Store.empty 1 10).store
        1 11).store.pairVotes 1 5 = [⟨Store.empty.nextId, 1, 11, 5⟩] :=
  ⟨rfl, rfl,
   (handleVote_revote 5 1 10 11 ⟨false, false, none⟩ Store.empty rfl rfl).2.2.2.1⟩

/-- Filtering a filtered list never yields more matches than the original. -/
theorem length_filter_filter_le {α : Type} (p q : α → Bool) (l : List α) :
    ((l.filter q).filter p).length ≤ (l.filter p).length :=
  List.Sublist.length_le (List.Sublist.filter p (List.filter_sublist l))

/-- One store request preserves the at-most-one-vote-per-(poll, user)
invariant: the only request that can add a vote row is the insert, and the
uniqueness constraint rejects it when a row for the pair already exists. -/
theorem voteUnique_applyOp (s : Store) (op : StoreOp) (h : s.voteUnique) :
    (s.applyOp op).voteUnique := by
  cases op with
  | selectVote pid uid => exact h
  | selectPollsWithOptions => exact h
  | countVotesByOption oid => exact h
  | insertPoll title uid => exact h
  | insertOptions pid texts => exact h
  | updateVote vid oid =>
    intro p u
    have hlen : ((s.updateVoteOption vid oid).pairVotes p u).length =
        (s.pairVotes p u).length := by
      unfold Store.updateVoteOption Store.pairVotes
      rw [List.filter_map, List.length_map]
      simp only [Function.comp_def]
      rw [List.filter_congr (fun x _ => votePairPred_update p u vid oid x)]
    show ((s.updateVoteOption vid oid).pairVotes p u).length ≤ 1
    rw [hlen]
    exact h p u
  | deleteVotesByPoll pid =>
    intro p u
    simp only [Store.applyOp, Store.deleteVotesByPoll, Store.pairVotes]
    exact le_trans (length_filter_filter_le _ _ _) (h p u)
  | deleteOptionsByPoll pid =>
    intro p u
    simp only [Store.applyOp, Store.deleteOptionsByPoll, Store.pairVotes]
    exact le_trans (length_filter_filter_le _ _ _) (h p u)
  | deletePoll pid uid =>
    intro p u
    simp only [Store.applyOp, Store.deletePollRow, Store.pairVotes]
    exact le_trans (length_filter_filter_le _ _ _) (h p u)
  | insertVote pid oid uid =>
    intro p u
    cases hany : s.votes.any (votePairPred pid uid) with
    | true =>
      simp only [Store.applyOp, Store.insertVoteRow, hany, if_true]
      exact h p u
    | false =>
      simp only [Store.applyOp, Store.insertVoteRow, hany, Bool.false_eq_true, if_false]
      show ((s.votes ++ [(⟨s.nextId, pid, oid, uid⟩ : VoteRow)]).filter
        (votePairPred p u)).length ≤ 1
      rw [List.filter_append]
      cases hpv : votePairPred p u ⟨s.nextId, pid, oid, uid⟩ with
      | false =>
        simp only [List.filter_cons, List.filter_nil, hpv, Bool.false_eq_true, if_false,
          List.append_nil]
        exact h p u
      | true =>
        have hp : pid = p ∧ uid = u := by
          simpa [votePairPred] using hpv
        have hnil : s.votes.filter (votePairPred p u) = [] := by
          rw [List.filter_eq_nil_iff]
          intro x hx
          have := List.any_eq_false.mp (hp.1 ▸ hp.2 ▸ hany) x hx
          simpa using this
        simp [hnil, hpv]

/-- Every sequence of store requests preserves the invariant. -/
theorem voteUnique_applyOps (ops : List StoreOp) (s : Store) (h : s.voteUnique) :
    (s.applyOps ops).voteUnique := by
  induction ops generalizing s with
  | nil => exact h
  | cons op ops ih => exact ih _ (voteUnique_applyOp s op h)

/-- C1: at most one vote row ever exists per (poll, user) pair — the
invariant is preserved by every sequence of store requests, including the
unguarded double insert a check-then-act race produces, because the store's
uniqueness constraint rejects the second insert; concretely, two first-time
inserts for the same (poll, user) pair with different options leave exactly
one surviving row. -/
theorem votes_at_most_one_per_pair (s : Store) (ops : List StoreOp)
    (h : s.voteUnique) :
    (s.applyOps ops).voteUnique ∧
    ∀ pid uid o1 o2 : Nat,
      ((Store.empty.applyOps
          [.insertVote pid o1 uid, .insertVote pid o2 uid]).pairVotes pid uid).length = 1 := by
  refine ⟨voteUnique_applyOps ops s h, ?_⟩
  intro pid uid o1 o2
  simp [Store.applyOps, Store.applyOp, Store.insertVoteRow, Store.empty, Store.pairVotes,
    votePairPred]

/-- Witness for C1: the empty store satisfies the invariant and so does the
result of a concrete request sequence containing a racing double insert. -/
theorem votes_at_most_one_per_pair_witness :
    Store.empty.voteUnique ∧
    (Store.empty.applyOps
      [.insertVote 1 10 5, .insertVote 1 12 5, .updateVote 0 11,
       .deleteVotesByPoll 2]).voteUnique :=
  ⟨fun pid uid => by simp [Store.empty, Store.pairVotes],
   (votes_at_most_one_per_pair Store.empty
      [.insertVote 1 10 5, .insertVote 1 12 5, .updateVote 0 11, .deleteVotesByPoll 2]
      (fun pid uid => by simp [Store.empty, Store.pairVotes])).1⟩

/-- `reduce` over the displayed counts with accumulator `a`. -/
theorem totalVotes_foldl (l : List DisplayOption) (a : Nat) :
    l.foldl (fun sum o => sum + o.vote_count.getD 0) a = a + totalVotes l := by
  induction l generalizing a with
  | nil => simp [totalVotes]
  | cons o l ih =>
    show List.foldl _ (a + o.vote_count.getD 0) l = a + totalVotes (o :: l)
    rw [ih]
    show _ = a + List.foldl _ (0 + o.vote_count.getD 0) l
    rw [ih (0 + o.vote_count.getD 0)]
    omega

/-- The displayed total is the sum of the displayed counts. -/
theorem totalVotes_eq_sum (l : List DisplayOption) :
    totalVotes l = (l.map (fun o => o.vote_count.getD 0)).sum := by
  induction l with
  | nil => rfl
  | cons o l ih =>
    show List.foldl _ (0 + o.vote_count.getD 0) l = _
    rw [totalVotes_foldl, ih]
    simp

/-- A fetched poll's displayed total is the sum of its options' counts. -/
theorem totalVotes_display (p : FetchedPoll) :
    totalVotes p.display = (p.poll_options.map FetchedOption.vote_count).sum := by
  unfold FetchedPoll.display
  rw [totalVotes_eq_sum, List.map_map]
  rfl

/-- C8: `fetchPolls` lists all polls newest-first (descending creation
time), each with its nested options; every option carries the count of vote
rows referencing it, the displayed total of a fetched poll is the sum of its
options' counts, and the request trace holds one separate count query per
fetched option after the single polls-with-options select. -/
theorem fetchPolls_spec (s : Store) :
    (fetchPolls s).Pairwise (fun a b => b.created_at ≤ a.created_at) ∧
    ((fetchPolls s).map FetchedPoll.id).Perm (s.polls.map PollRow.id) ∧
    (∀ p ∈ fetchPolls s,
      (∀ o ∈ p.poll_options, o.vote_count = s.countVotesForOption o.id) ∧
      p.poll_options.map FetchedOption.id = (s.optionsOfPoll p.id).map OptionRow.id ∧
      totalVotes p.display = (p.poll_options.map FetchedOption.vote_count).sum) ∧
    fetchPollsOps s = StoreOp.selectPollsWithOptions ::
      (fetchPolls s).flatMap (fun p => p.poll_options.map
        (fun o => StoreOp.countVotesByOption o.id)) := by
  refine ⟨?_, ?_, ?_, ?_⟩
  · exact List.Pairwise.map _ (fun a b hab => hab)
      (List.sorted_insertionSort newestFirst s.polls)
  · show ((s.polls.insertionSort newestFirst).map _).map FetchedPoll.id |>.Perm _
    rw [List.map_map]
    exact (List.perm_insertionSort newestFirst s.polls).map _
  · intro p hp
    obtain ⟨q, hq, rfl⟩ := List.mem_map.mp hp
    refine ⟨?_, ?_, totalVotes_display _⟩
    · intro o ho
      obtain ⟨ow, how, rfl⟩ := List.mem_map.mp ho
      rfl
    · show ((s.optionsOfPoll q.id).map _).map FetchedOption.id = _
      rw [List.map_map]
      rfl
  · show fetchPollsOps s = StoreOp.selectPollsWithOptions ::
      ((s.polls.insertionSort newestFirst).map _).flatMap _
    rw [List.flatMap_map]
    simp only [List.map_map]
    rfl

/-- Witness for C8 on `sampleStore`: the first poll is fetched with counts
A = 2 and B = 1, matching the per-option count queries. -/
theorem fetchPolls_spec_witness :
    sampleFetchedP1 ∈ fetchPolls sampleStore ∧
    (∀ o ∈ sampleFetchedP1.poll_options,
      o.vote_count = sampleStore.countVotesForOption o.id) :=
  ⟨by decide, ((fetchPolls_spec sampleStore).2.2.1 sampleFetchedP1 (by decide)).1⟩

end FlashPoll

